import Mathlib

/-!
Verification of the Pixareact generated-code sanitation and repair pipeline.

The development shallowly embeds the TypeScript source of the repository
(`src/unnamed/part_001`, the generate route, and `src/unnamed/part_000`, the
ephemeral image store) into Lean.  Strings are modelled as `List Char`
(Lean `String.data`); each JavaScript regular-expression replacement of the
sanitizer is modelled by a dedicated left-to-right scanner that mirrors the
semantics of that concrete regex (greedy quantifiers with backtracking,
multiline anchors, global continuation after each match).  The scanners use
an explicit fuel argument (always called with `length + 1`, and every
recursive call both consumes fuel and strictly shortens the list), which
keeps every definition structurally recursive and hence evaluable by the
kernel.
-/

namespace Pixareact

/-- JavaScript `\s` character class (the set used by `\s`, `trim()`):
space, tab, LF, VT, FF, CR, NBSP, and the Unicode space separators. -/
def isJsWs (c : Char) : Bool :=
  c = ' ' || c = '\t' || c = '\n' || c = '\x0b' || c = '\x0c' || c = '\r' ||
  c.toNat = 0xA0 || c.toNat = 0x1680 ||
  (0x2000 ≤ c.toNat && c.toNat ≤ 0x200A) ||
  c.toNat = 0x2028 || c.toNat = 0x2029 || c.toNat = 0x202F ||
  c.toNat = 0x205F || c.toNat = 0x3000 || c.toNat = 0xFEFF

/-- JavaScript line terminators, the positions where multiline `^` and `$`
match (LF, CR, LS, PS). -/
def isLineTerm (c : Char) : Bool :=
  c = '\n' || c = '\r' || c.toNat = 0x2028 || c.toNat = 0x2029

/-- JavaScript `\w` character class. -/
def isWordChar (c : Char) : Bool :=
  c.isAlpha || c.isDigit || c = '_'

/-- True when the character is a single or double quote (`['"]`). -/
def isQuote (c : Char) : Bool :=
  c = '\x27' || c = '"'

/-- Splits a list at the LAST element satisfying `p`: returns
`some (before, suffix)` with `before ++ suffix` the input and `suffix`
beginning with that last satisfying element, or `none` when no element
satisfies `p`.  Used to express the backtracking of a greedy `\s*` in
front of an anchor or lookahead. -/
def splitAtLast (p : Char → Bool) : List Char → Option (List Char × List Char)
  | [] => none
  | c :: rest =>
    match splitAtLast p rest with
    | some (a, b) => some (c :: a, b)
    | none => if p c then some ([], c :: rest) else none

/-- Sanitizer rule 1 (source line 191),
`out.replace(/(\})(['"])\s*(?=[>\n\r])/g, '$1')`: a closing brace, a stray
quote and greedy whitespace with a lookahead for `>`, LF, or CR.  The greedy
`\s*` backtracks to the last LF/CR inside the whitespace run (whitespace can
never satisfy the lookahead with `>`; the run is maximal, so the character
after it satisfies the lookahead only if it is `>`). -/
def stripBraceQuoteGo : Nat → List Char → List Char
  | 0, l => l
  | _ + 1, [] => []
  | fuel + 1, c :: rest =>
    if c = '\x7d' then
      match rest with
      | q :: r2 =>
        if isQuote q then
          let w := r2.takeWhile isJsWs
          let r1 := r2.dropWhile isJsWs
          match r1 with
          | '>' :: _ => '\x7d' :: stripBraceQuoteGo fuel r1
          | _ =>
            match splitAtLast (fun x => x = '\n' || x = '\r') w with
            | some (_, suf) => '\x7d' :: stripBraceQuoteGo fuel (suf ++ r1)
            | none => '\x7d' :: stripBraceQuoteGo fuel rest
        else '\x7d' :: stripBraceQuoteGo fuel rest
      | [] => ['\x7d']
    else c :: stripBraceQuoteGo fuel rest

/-- Sanitizer rule 2 (source line 194),
`out.replace(/(on\w+=\{[^}]*\})['"]/g, (_m, p1) => p1)`: an event-handler
looking attribute `on<word>={...}` followed by a stray quote; the quote is
dropped.  `\w` cannot match `=`, and `[^}]` cannot match `}`, so both
quantifiers are deterministic maximal runs. -/
def stripHandlerQuoteGo : Nat → List Char → List Char
  | 0, l => l
  | _ + 1, [] => []
  | fuel + 1, c :: rest =>
    if c = 'o' then
      match rest with
      | 'n' :: r1 =>
        let w := r1.takeWhile isWordChar
        let r2 := r1.dropWhile isWordChar
        if w = [] then 'o' :: stripHandlerQuoteGo fuel rest
        else
          match r2 with
          | '=' :: '\x7b' :: r3 =>
            let inner := r3.takeWhile (fun x => !(x = '\x7d'))
            let r4 := r3.dropWhile (fun x => !(x = '\x7d'))
            match r4 with
            | '\x7d' :: q :: r5 =>
              if isQuote q then
                'o' :: 'n' :: (w ++ '=' :: '\x7b' ::
                  (inner ++ '\x7d' :: stripHandlerQuoteGo fuel r5))
              else 'o' :: stripHandlerQuoteGo fuel rest
            | _ => 'o' :: stripHandlerQuoteGo fuel rest
          | _ => 'o' :: stripHandlerQuoteGo fuel rest
      | _ => 'o' :: stripHandlerQuoteGo fuel rest
    else c :: stripHandlerQuoteGo fuel rest

/-- Sanitizer rule 3 (source line 197), `out.replace(/`\s*$/gm, '')`: a
backtick whose following greedy whitespace reaches end of input, or — by
backtracking — reaches a position just before a line terminator (`$` with
the `m` flag).  The match, including the consumed whitespace, is removed. -/
def stripLineEndBacktickGo : Nat → List Char → List Char
  | 0, l => l
  | _ + 1, [] => []
  | fuel + 1, c :: rest =>
    if c = '\x60' then
      let w := rest.takeWhile isJsWs
      let r1 := rest.dropWhile isJsWs
      match r1 with
      | [] => []
      | _ =>
        match splitAtLast isLineTerm w with
        | some (_, suf) => stripLineEndBacktickGo fuel (suf ++ r1)
        | none => '\x60' :: stripLineEndBacktickGo fuel rest
    else c :: stripLineEndBacktickGo fuel rest

/-- Sanitizer rule 3.1 (source line 201),
`out.replace(/^\s*['"]\s*$/gm, '')`: from a position where multiline `^`
holds, greedy whitespace (which, `\s` containing LF, may span blank lines),
one quote, then greedy whitespace up to end of input or (backtracking) up
to just before a line terminator.  The whole match is removed.  The `bol`
flag tracks whether `^` holds at the current position; after a match the
flag is recomputed from the last character of the match. -/
def dropQuoteOnlyLinesGo : Nat → Bool → List Char → List Char
  | 0, _, l => l
  | _ + 1, _, [] => []
  | fuel + 1, bol, c :: rest =>
    if bol then
      let r1 := (c :: rest).dropWhile isJsWs
      match r1 with
      | q :: r2 =>
        if isQuote q then
          let t := r2.takeWhile isJsWs
          let r3 := r2.dropWhile isJsWs
          match r3 with
          | [] => []
          | _ =>
            match splitAtLast isLineTerm t with
            | some (pre, suf) =>
              let lastC := match pre.getLast? with
                | some x => x
                | none => q
              dropQuoteOnlyLinesGo fuel (isLineTerm lastC) (suf ++ r3)
            | none => c :: dropQuoteOnlyLinesGo fuel (isLineTerm c) rest
        else c :: dropQuoteOnlyLinesGo fuel (isLineTerm c) rest
      | [] => c :: dropQuoteOnlyLinesGo fuel (isLineTerm c) rest
    else c :: dropQuoteOnlyLinesGo fuel (isLineTerm c) rest

/-- The closing tokens of sanitizer rule 3.2's character class
`[}\)\];,`]`. -/
def isCloser32 (c : Char) : Bool :=
  c = '\x7d' || c = ')' || c = ']' || c = ';' || c = ',' || c = '\x60'

/-- Sanitizer rule 3.2 (source line 209),
`out.replace(/(:\s*)['"]\s*(\r?\n\s*[}\)\];,`])/g, "$1''$2")`: a colon with
whitespace (group 1), a quote, greedy whitespace that backtracks to the
last `\n` inside the run so that group 2 can match `\r?\n` (the greedy
alternative keeps `\r` in the middle whitespace and matches the bare `\n`),
the rest of the whitespace run, and a closing token.  The quote and the
whitespace before the matched `\n` are outside both groups and disappear;
`''` is inserted between the groups. -/
def fixTernaryQuoteGo : Nat → List Char → List Char
  | 0, l => l
  | _ + 1, [] => []
  | fuel + 1, c :: rest =>
    if c = ':' then
      let w1 := rest.takeWhile isJsWs
      let r1 := rest.dropWhile isJsWs
      match r1 with
      | q :: r2 =>
        if isQuote q then
          let m := r2.takeWhile isJsWs
          let r3 := r2.dropWhile isJsWs
          match r3 with
          | z :: r4 =>
            if isCloser32 z then
              match splitAtLast (fun x => x = '\n') m with
              | some (_, suf) =>
                ':' :: (w1 ++ '\x27' :: '\x27' :: (suf ++ z ::
                  fixTernaryQuoteGo fuel r4))
              | none => ':' :: fixTernaryQuoteGo fuel rest
            else ':' :: fixTernaryQuoteGo fuel rest
          | [] => ':' :: fixTernaryQuoteGo fuel rest
        else ':' :: fixTernaryQuoteGo fuel rest
      | [] => ':' :: fixTernaryQuoteGo fuel rest
    else c :: fixTernaryQuoteGo fuel rest

/-- `src.split(/\r?\n/)` (source lines 221 and 272): split at each CRLF or
bare LF; a bare CR is not a separator. -/
def splitLinesGo : List Char → List Char → List (List Char)
  | acc, [] => [acc.reverse]
  | acc, '\r' :: '\n' :: rest => acc.reverse :: splitLinesGo [] rest
  | acc, '\n' :: rest => acc.reverse :: splitLinesGo [] rest
  | acc, c :: rest => splitLinesGo (c :: acc) rest

/-- Splits a text into its lines, JavaScript `split(/\r?\n/)`. -/
def splitLines (l : List Char) : List (List Char) :=
  splitLinesGo [] l

/-- `lines.join('\n')` (source line 238). -/
def joinLines : List (List Char) → List Char
  | [] => []
  | [l] => l
  | l :: rest => l ++ '\n' :: joinLines rest

/-- JavaScript `String.prototype.trim`. -/
def jsTrim (l : List Char) : List Char :=
  ((l.dropWhile isJsWs).reverse.dropWhile isJsWs).reverse

/-- `line.match(/([\s:=,\(\[]*)(['"])\s*$/)` is truthy (source line 226),
and likewise `/['"]\s*$/.test(line)` (source line 275): the first group is
unconstrained (it may be empty), so the regex matches exactly when the last
non-whitespace character of the line is a quote. -/
def lastNonWsIsQuote (line : List Char) : Bool :=
  match line.reverse.dropWhile isJsWs with
  | q :: _ => isQuote q
  | [] => false

/-- `line.replace(/(['"])\s*$/, "''")` (source line 234): the only possible
match is at the last non-whitespace character (which the caller has checked
is a quote); the quote and the trailing whitespace are replaced by `''`. -/
def fixTrailingQuote (line : List Char) : List Char :=
  match line.reverse.dropWhile isJsWs with
  | _ :: kept => kept.reverse ++ '\x27' :: ['\x27']
  | [] => line

/-- The trimmed first non-empty line among `ls`
(`while (lines[j].trim() === '') j++`, source lines 229-231 and 276-278);
`[]` plays the role of the empty string when every line is blank. -/
def nextNonEmptyTrim : List (List Char) → List Char
  | [] => []
  | l :: rest => if jsTrim l = [] then nextNonEmptyTrim rest else jsTrim l

/-- The `startsWith` alternatives of sanitizer rule 3.3 (source line 232):
`}`, `)`, `]`, `,`, `;`, or a backtick. -/
def startsWithCloser33 : List Char → Bool
  | [] => false
  | c :: _ =>
    c = '\x7d' || c = ')' || c = ']' || c = ',' || c = ';' || c = '\x60'

/-- One pass of sanitizer rule 3.3's loop (source lines 222-237): each line
whose last non-whitespace character is a quote, and whose next non-blank
line starts with a closing token, has that trailing quote replaced by `''`.
The loop mutates only the current index, and the lookahead reads later,
not-yet-visited lines, so each line is rewritten independently. -/
def fixDanglingLinesGo : List (List Char) → List (List Char)
  | [] => []
  | line :: rest =>
    (if lastNonWsIsQuote line && startsWithCloser33 (nextNonEmptyTrim rest)
     then fixTrailingQuote line else line) :: fixDanglingLinesGo rest

/-- Sanitizer rule 3.3 (source lines 220-242): split into lines, rewrite
dangling trailing quotes, join with `'\n'` (so CRLF is normalized to LF
even on untouched lines). -/
def fixDanglingQuoteLines (l : List Char) : List Char :=
  joinLines (fixDanglingLinesGo (splitLines l))

/-- Sanitizer rule 5 (source line 249),
`out.replace(/[\x00-\x08\x0B\x0C\x0E-\x1F]+/g, '')`: strip the control
characters outside common whitespace. -/
def stripControlChars (l : List Char) : List Char :=
  l.filter (fun c =>
    !(c.toNat ≤ 8 || c.toNat = 11 || c.toNat = 12 ||
      (14 ≤ c.toNat && c.toNat ≤ 31)))

/-- `sanitizeGeneratedCode` (source lines 186-252) on character lists: the
ordered rules 1, 2, 3, 3.1, 3.2, 3.3, 5.  (Rule 4 is an explicit anti-rule:
nothing is collapsed.  The `try` around rule 3.3 cannot throw in this pure
model.) -/
def sanitizeList (l : List Char) : List Char :=
  let s1 := stripBraceQuoteGo (l.length + 1) l
  let s2 := stripHandlerQuoteGo (s1.length + 1) s1
  let s3 := stripLineEndBacktickGo (s2.length + 1) s2
  let s4 := dropQuoteOnlyLinesGo (s3.length + 1) true s3
  let s5 := fixTernaryQuoteGo (s4.length + 1) s4
  let s6 := fixDanglingQuoteLines s5
  stripControlChars s6

/-- `sanitizeGeneratedCode` (source lines 186-252). -/
def sanitizeGeneratedCode (s : String) : String :=
  ⟨sanitizeList s.data⟩

/-- Count of characters equal to `q` that are not preceded by a backslash:
the `(?<!\\)` lookbehind used at source lines 256, 264 and 265. -/
def countUnescapedGo (q : Char) (prev : Option Char) : List Char → Nat
  | [] => 0
  | c :: rest =>
    (if c = q && !(prev = some '\\') then 1 else 0) +
      countUnescapedGo q (some c) rest

/-- Count of unescaped occurrences of `q` (regex `(?<!\\)q`). -/
def countUnescaped (q : Char) (l : List Char) : Nat :=
  countUnescapedGo q none l

/-- `src.replace(/`[\s\S]*?`/g, '')` (source line 263): repeatedly remove
the leftmost pair of backticks together with everything between them; a
final unpaired backtick stays. -/
def removeTemplatesGo : Nat → List Char → List Char
  | 0, l => l
  | _ + 1, [] => []
  | fuel + 1, c :: rest =>
    if c = '\x60' then
      match rest.dropWhile (fun x => !(x = '\x60')) with
      | _ :: r2 => removeTemplatesGo fuel r2
      | [] => c :: rest
    else c :: removeTemplatesGo fuel rest

/-- `src.replace(/`[\s\S]*?`/g, '')` with the fuel pre-applied. -/
def removeTemplates (l : List Char) : List Char :=
  removeTemplatesGo (l.length + 1) l

/-- The `startsWith` alternatives of the detector's line scan (source line
279): `}`, `)`, `]`, `,`, `;` — the backtick is NOT in this list. -/
def startsWithCloserDet : List Char → Bool
  | [] => false
  | c :: _ => c = '\x7d' || c = ')' || c = ']' || c = ',' || c = ';'

/-- The detector's line scan (source lines 272-283): some line ends (after
trailing whitespace) in a quote while the next non-blank line starts with a
closing token. -/
def detectorLinesGo : List (List Char) → Bool
  | [] => false
  | line :: rest =>
    (lastNonWsIsQuote line && startsWithCloserDet (nextNonEmptyTrim rest)) ||
      detectorLinesGo rest

/-- `isLikelyBroken` (source lines 254-299) on character lists.  The
source's chain of early `return true`s is the disjunction of its checks,
in source order: odd unescaped backticks; odd unescaped single quotes and
odd unescaped double quotes after removing backtick-delimited regions; the
dangling-quote line scan; and the three bracket-count balances. -/
def isLikelyBrokenList (l : List Char) : Bool :=
  (countUnescaped '\x60' l % 2 == 1) ||
  (countUnescaped '\x27' (removeTemplates l) % 2 == 1) ||
  (countUnescaped '"' (removeTemplates l) % 2 == 1) ||
  detectorLinesGo (splitLines l) ||
  (l.count '\x7b' != l.count '\x7d') ||
  (l.count '(' != l.count ')') ||
  (l.count '[' != l.count ']')

/-- `isLikelyBroken` (source lines 254-299). -/
def isLikelyBroken (s : String) : Bool :=
  isLikelyBrokenList s.data

/-! ## The ephemeral image store (`src/unnamed/part_000`) -/

/-- `ImageRecord` (part_000 line 1):
`{ dataUrl: string; description?: string; name?: string }`. -/
structure ImageRecord where
  dataUrl : String
  description : Option String
  name : Option String
deriving DecidableEq, Repr

/-- The state of the process-wide `Map<string, ImageRecord>`
(`imageDescriptions`, part_000 line 2), as its list of entries in
insertion order. -/
abbrev Store := List (String × ImageRecord)

/-- `Map.prototype.set`: update the entry in place when the key is present,
append it otherwise (part_001 line 47, `imageDescriptions.set(id, ...)`). -/
def storeSet : Store → String → ImageRecord → Store
  | [], k, v => [(k, v)]
  | (k0, v0) :: rest, k, v =>
    if k0 = k then (k, v) :: rest else (k0, v0) :: storeSet rest k v

/-- `Map.prototype.get`: the stored record, or `none` (JavaScript
`undefined`) when the key was never inserted (part_001 line 91,
`imageDescriptions.get(imageId)`). -/
def storeGet : Store → String → Option ImageRecord
  | [], _ => none
  | (k0, v) :: rest, k => if k0 = k then some v else storeGet rest k

/-! ## The generate route handler (`src/unnamed/part_001` lines 73-179)

The handler is embedded as a pure function of: the `GEMINI_API_KEY`
environment value, the system prompt (the source computes
`getCodingPrompt(shadcn)`, lines 315-397, whose large static text content
no claim depends on, so it is passed in as the `system` argument), the
parsed JSON request body, the current store contents, and an oracle `gen`
giving the outcome of the n-th `ai.models.generateContent` call (call 0 is
the initial generation, call 1 the repair attempt of `repairWithModel`).
The handler returns the HTTP response together with the list of model
calls it issued, in order. -/

/-- The parsed fields of the JSON request body (lines 76-81).  `Option`
models absent/`undefined` fields. -/
structure ReqBody where
  model : Option String
  imageUrl : Option String
  imageId : Option String
  imageDescription : Option String
  shadcn : Bool
deriving DecidableEq, Repr

/-- An image part of a model request: inline base64 bytes with media type,
or a remote file URI (lines 98-110, 132-136). -/
inductive ImagePayload where
  | inline (data : String) (mimeType : String)
  | file (fileUri : String)
deriving DecidableEq, Repr

/-- One part of a `generateContent` request content array. -/
inductive GenPart where
  | text (s : String)
  | image (p : ImagePayload)
deriving DecidableEq, Repr

/-- The contents of one `generateContent` request: a plain string (line
142) or an array of parts (lines 138, 309). -/
inductive GenContents where
  | str (s : String)
  | arr (ps : List GenPart)
deriving DecidableEq, Repr

/-- One issued model call: target model name and contents. -/
structure GenCall where
  model : String
  contents : GenContents
deriving DecidableEq, Repr

/-- The outcome of one `ai.models.generateContent` call: the promise
rejects (`throws`), or a response arrives whose extracted text
(`resp?.text ?? resp?.candidates?.[0]?.content ?? resp?.output?.[0]?.content`)
is `text` (`none` when every fallback is nullish) and whose
`JSON.stringify` serialization is `stringified` (the last fallback of line
146). -/
inductive GenOutcome where
  | throws (err : String)
  | resp (text : Option String) (stringified : String)

/-- The HTTP response of the handler: status code and body text (for the
success path, the single chunk streamed back). -/
structure HandlerResponse where
  status : Nat
  body : String
deriving DecidableEq, Repr

/-- Lines 100-104: `imageUrl.match(/^data:([^;]+);base64,(.*)$/)` gives
`some (mimeType, data)`.  `[^;]+` is the non-empty run before the first
`;` (which must be followed by the literal `base64,`), and `(.*)$` — with
neither `s` nor `m` flag — requires the remainder to contain no line
terminator. -/
def parseDataUrl (l : List Char) : Option (String × String) :=
  if l.take 5 = "data:".data then
    let rest := l.drop 5
    let mime := rest.takeWhile (fun x => !(x = ';'))
    let r2 := rest.dropWhile (fun x => !(x = ';'))
    if mime = [] then none
    else if r2.take 8 = ";base64,".data then
      let data := r2.drop 8
      if data.all (fun c => !(isLineTerm c)) then some (⟨mime⟩, ⟨data⟩)
      else none
    else none
  else none

/-- Line 105: `/^https?:\/\//i.test(imageUrl)`. -/
def hasHttpScheme (l : List Char) : Bool :=
  let low := l.map Char.toLower
  low.take 7 = "http://".data || low.take 8 = "https://".data

/-- Lines 98-110: build the optional image payload from `imageUrl`
(truthiness: an absent or empty `imageUrl` gives no payload). -/
def parseImagePayload : Option String → Option ImagePayload
  | none => none
  | some u =>
    if u = "" then none
    else if u.data.take 5 = "data:".data then
      match parseDataUrl u.data with
      | some (mime, data) => some (.inline data mime)
      | none => none
    else if hasHttpScheme u.data then some (.file u)
    else none

/-- Line 91: `imageId ? imageDescriptions.get(imageId) : undefined`. -/
def storedFor (store : Store) (body : ReqBody) : Option ImageRecord :=
  match body.imageId with
  | some iid => if iid = "" then none else storeGet store iid
  | none => none

/-- Line 92:
`stored?.description ?? clientImageDescription ?? (imageUrl ? \`Image URL: ${imageUrl}\` : 'none')`.
`??` falls through only on nullish values (an empty stored description is
kept), while the final `imageUrl ?` is a truthiness test. -/
def imageDescriptor (store : Store) (body : ReqBody) : String :=
  match (storedFor store body).bind ImageRecord.description with
  | some d => d
  | none =>
    match body.imageDescription with
    | some c => c
    | none =>
      match body.imageUrl with
      | some u => if u = "" then "none" else "Image URL: " ++ u
      | none => "none"

/-- Line 128: `stored?.description ?? clientImageDescription`. -/
def descriptionToUse (store : Store) (body : ReqBody) : Option String :=
  match (storedFor store body).bind ImageRecord.description with
  | some d => some d
  | none => body.imageDescription

/-- Lines 112-114: the user prompt, depending on whether an image payload
is available. -/
def userPromptFor (store : Store) (body : ReqBody) : String :=
  match parseImagePayload body.imageUrl with
  | some _ => "Analyze the provided image and create a React TypeScript component that recreates the UI shown. Transform any sketches, wireframes, or mockups into a polished, professional web interface."
  | none => "Create a React TypeScript component that recreates the UI described. Image description: " ++ imageDescriptor store body

/-- Line 115 (computed by the source but never used afterwards). -/
def fullPromptFor (system : String) (store : Store) (body : ReqBody) : String :=
  system ++ "\n\nUser: " ++ userPromptFor store body

/-- Line 130:
`${userPrompt}${descriptionToUse ? \`\n\nImage description: ${descriptionToUse}\` : ''}`
(truthiness: an empty-string description appends nothing). -/
def userPromptTextFor (store : Store) (body : ReqBody) : String :=
  userPromptFor store body ++
    (match descriptionToUse store body with
     | some d => if d = "" then "" else "\n\nImage description: " ++ d
     | none => "")

/-- Line 121:
`model ? (model.startsWith('models/') ? model : \`models/${model}\`) : 'models/gemini-2.5-flash'`. -/
def modelNameFor (body : ReqBody) : String :=
  match body.model with
  | some m =>
    if m = "" then "models/gemini-2.5-flash"
    else if m.data.take 7 = "models/".data then m
    else "models/" ++ m
  | none => "models/gemini-2.5-flash"

/-- Lines 132-144: the initial `generateContent` request — system prompt,
user prompt and image part when a payload exists (line 138), otherwise the
two prompts joined as one string (line 142). -/
def call1For (system : String) (store : Store) (body : ReqBody) : GenCall :=
  match parseImagePayload body.imageUrl with
  | some p =>
    { model := modelNameFor body,
      contents := .arr [.text system, .text (userPromptTextFor store body),
        .image p] }
  | none =>
    { model := modelNameFor body,
      contents := .str (system ++ "\n\n" ++ userPromptTextFor store body) }

/-- The fixed repair instruction of `repairWithModel` (lines 304-307). -/
def repairPrompt : String :=
  "The following file is a TypeScript React component which may\nhave syntax errors (unterminated template literals, unmatched braces, stray\nquotes, etc.). Fix the file so it is valid TypeScript/TSX and return only the\ncomplete corrected file contents with no explanation or surrounding code fences."

/-- Lines 309-310: the repair request `[repairPrompt, brokenCode]`, sent to
the same model as the original generation. -/
def repairCallFor (body : ReqBody) (broken : String) : GenCall :=
  { model := modelNameFor body,
    contents := .arr [.text repairPrompt, .text broken] }

/-- The generate `POST` handler (lines 73-179), from the point where the
request body has been parsed.  Returns the response and the list of model
calls issued.  Modelled control flow:
* line 83-84: `process.env.GEMINI_API_KEY || ''` is empty → 500 before any
  model call;
* line 139/143: the initial call; a rejection propagates to the outer
  `catch` (line 176-178) → 500 with `String(err)`;
* line 146: the response text, `JSON.stringify(response)` as last resort;
* line 149: sanitize;
* lines 154-163: when `isLikelyBroken` flags the sanitized text, exactly
  one repair call; a rejection or a nullish/empty repair text (the
  truthiness tests at lines 157 and 312) keeps the pre-repair text; a
  usable repair text is re-sanitized;
* lines 165-175: the final text is streamed back with status 200.  The
  detector is never re-run on the repaired text. -/
def generatePOST (envKey : Option String) (system : String) (body : ReqBody)
    (store : Store) (gen : Nat → GenOutcome) :
    HandlerResponse × List GenCall :=
  if envKey.getD "" = "" then
    ({ status := 500, body := "GEMINI_API_KEY not set" }, [])
  else
    match gen 0 with
    | .throws e => ({ status := 500, body := e }, [call1For system store body])
    | .resp t st =>
      if isLikelyBroken (sanitizeGeneratedCode (t.getD st)) then
        match gen 1 with
        | .throws _ =>
          ({ status := 200, body := sanitizeGeneratedCode (t.getD st) },
           [call1For system store body,
            repairCallFor body (sanitizeGeneratedCode (t.getD st))])
        | .resp rt _ =>
          match rt with
          | none =>
            ({ status := 200, body := sanitizeGeneratedCode (t.getD st) },
             [call1For system store body,
              repairCallFor body (sanitizeGeneratedCode (t.getD st))])
          | some r =>
            if r = "" then
              ({ status := 200, body := sanitizeGeneratedCode (t.getD st) },
               [call1For system store body,
                repairCallFor body (sanitizeGeneratedCode (t.getD st))])
            else
              ({ status := 200, body := sanitizeGeneratedCode r },
               [call1For system store body,
                repairCallFor body (sanitizeGeneratedCode (t.getD st))])
      else
        ({ status := 200, body := sanitizeGeneratedCode (t.getD st) },
         [call1For system store body])

/-! ## Concrete instances used by the theorems below -/

/-- A small well-formed component source in the style of the repository's
own example output (part_001 lines 404-449): balanced delimiters, no
line-final backticks, no dangling quotes — none of the sanitizer's
patterns occur in it. -/
def sampleComponent : String :=
  "import \x7b Button \x7d from \"@/components/ui/button\"\n\nexport default function LandingPage() \x7b\n  return (\n    <div className=\"min-h-screen bg-gray-100\">\n      <span className=\"font-bold text-xl\">LOGO</span>\n      <Button className=\"rounded-full\">Sign up</Button>\n    </div>\n  )\n\x7d"

/-- A request body with no image and no client description. -/
def demoBody : ReqBody :=
  { model := none, imageUrl := none, imageId := none,
    imageDescription := none, shadcn := false }

/-- A model oracle that always answers with the text `"{"` — a text that
stays broken (unbalanced braces) even after sanitization, also when
returned by the repair call. -/
def demoGenBroken : Nat → GenOutcome :=
  fun _ => GenOutcome.resp (some "\x7b") ""

/-- A model oracle whose initial call returns the broken text `"{"` and
whose repair call rejects. -/
def demoGenRepairThrows : Nat → GenOutcome :=
  fun n => if n = 0 then GenOutcome.resp (some "\x7b") ""
           else GenOutcome.throws "network error"

/-- A stored upload record with a non-empty server-side description. -/
def demoRecord : ImageRecord :=
  { dataUrl := "data:image/png;base64,AAAA",
    description := some "a red submit button on a white card",
    name := some "shot.png" }

/-- A store holding `demoRecord` under the identifier `"img-1"`. -/
def demoStore : Store := [("img-1", demoRecord)]

/-! ## Helper lemmas -/

/-- After `set m k v`, `get k` finds exactly `v`. -/
theorem storeGet_storeSet_self (m : Store) (k : String) (v : ImageRecord) :
    storeGet (storeSet m k v) k = some v := by
  induction m with
  | nil => simp [storeSet, storeGet]
  | cons p rest ih =>
    obtain ⟨k0, v0⟩ := p
    by_cases h : k0 = k
    · subst h; simp [storeSet, storeGet]
    · simp [storeSet, storeGet, h, ih]

/-- Every entry of `set m k v` is the new entry or an entry of `m`. -/
theorem mem_storeSet {m : Store} {k : String} {v : ImageRecord}
    {p : String × ImageRecord} (hp : p ∈ storeSet m k v) :
    p = (k, v) ∨ p ∈ m := by
  induction m with
  | nil => simpa [storeSet] using hp
  | cons q rest ih =>
    obtain ⟨k0, v0⟩ := q
    by_cases h : k0 = k
    · subst h
      simp only [storeSet, if_pos rfl] at hp
      rcases List.mem_cons.mp hp with h1 | h1
      · exact Or.inl h1
      · exact Or.inr (List.mem_cons_of_mem _ h1)
    · simp only [storeSet, if_neg h] at hp
      rcases List.mem_cons.mp hp with h1 | h1
      · exact Or.inr (h1 ▸ List.mem_cons_self _ _)
      · rcases ih h1 with h2 | h2
        · exact Or.inl h2
        · exact Or.inr (List.mem_cons_of_mem _ h2)

/-- A key held by no entry is not found. -/
theorem storeGet_eq_none {m : Store} {k : String}
    (h : ∀ p ∈ m, p.1 ≠ k) : storeGet m k = none := by
  induction m with
  | nil => rfl
  | cons q rest ih =>
    obtain ⟨k0, v0⟩ := q
    have hk0 : k0 ≠ k := h (k0, v0) (List.mem_cons_self _ _)
    simp only [storeGet, if_neg hk0]
    exact ih fun p hp => h p (List.mem_cons_of_mem _ hp)

/-! ## The claims -/

/-- C1, counterexample: the sanitizer is NOT the identity on all
syntactically valid input.  The valid one-line program
`const s = \x60abc\x60` (a terminated template literal at the end of a
line) is classified as fine by the repository's own detector, yet rule 3
strips the closing backtick, producing text the detector flags as broken —
valid input became invalid output. -/
theorem sanitize_not_identity_on_valid_counterexample :
    sanitizeGeneratedCode "const s = \x60abc\x60" = "const s = \x60abc" ∧
    sanitizeGeneratedCode "const s = \x60abc\x60" ≠ "const s = \x60abc\x60" ∧
    isLikelyBroken "const s = \x60abc\x60" = false ∧
    isLikelyBroken (sanitizeGeneratedCode "const s = \x60abc\x60") = true := by
  decide

set_option maxRecDepth 100000 in
/-- C1, amended: non-destructiveness holds for well-formed component
sources in which none of the sanitizer's trigger patterns occur (no
line-final backtick, no stray quote after a brace, no dangling-quote
line): on the repository-style sample component, `sanitize(x) = x`, and
the detector classifies the sample as not broken. -/
theorem sanitize_sample_component_unchanged :
    sanitizeGeneratedCode sampleComponent = sampleComponent ∧
    isLikelyBroken sampleComponent = false := by
  decide

/-- C2, counterexample: the sanitizer is NOT idempotent.  On the line
`isActive ? 'on' : '` followed by `}`, the first application produces
`: '''` (rule 3.2 inserts `''`, then rule 3.3 re-fires on the rewritten
line) and a second application appends yet another quote. -/
theorem sanitize_not_idempotent_counterexample :
    sanitizeGeneratedCode
        (sanitizeGeneratedCode "isActive ? \x27on\x27 : \x27\n\x7d") ≠
      sanitizeGeneratedCode "isActive ? \x27on\x27 : \x27\n\x7d" := by
  decide

set_option maxRecDepth 100000 in
/-- C2, amended: re-applying the sanitizer to already-clean text is a
no-op: on the sample component, and on the output of sanitizing
`const s = \x60abc\x60` (an input the first pass does rewrite), a second
pass changes nothing. -/
theorem sanitize_idempotent_on_cleaned_sample :
    sanitizeGeneratedCode (sanitizeGeneratedCode "const s = \x60abc\x60") =
      sanitizeGeneratedCode "const s = \x60abc\x60" ∧
    sanitizeGeneratedCode (sanitizeGeneratedCode sampleComponent) =
      sanitizeGeneratedCode sampleComponent := by
  decide

/-- C3: evaluating the code at the spec's own test case.  For the input
`isActive ? 'on' : '` followed by `}`, one application of
`sanitizeGeneratedCode` yields `isActive ? 'on' : '''` — rule 3.2 repairs
the dangling quote to `''`, but rule 3.3 then re-fires on the repaired
line and appends a third quote — and the result is flagged broken by
`isLikelyBroken`, contradicting the claimed `''` / not-broken outcome
(and the code's own comments at source lines 206-208 and 218-219). -/
theorem sanitize_ternary_dangling_quote_bug :
    sanitizeGeneratedCode "isActive ? \x27on\x27 : \x27\n\x7d" =
      "isActive ? \x27on\x27 : \x27\x27\x27\n\x7d" ∧
    isLikelyBroken
        (sanitizeGeneratedCode "isActive ? \x27on\x27 : \x27\n\x7d") = true := by
  decide

/-- C4: the repair path issues at most one model call.  First conjunct: on
every input the handler issues at most two model calls in total (the
initial generation and at most one repair — no repair loop).  Second
conjunct: when the detector flags the sanitized text and the repair call
returns usable text `r`, the call log is exactly the initial call followed
by one repair call, and the response body is the re-sanitized repair text
`sanitizeGeneratedCode r` — with no hypothesis about
`isLikelyBroken (sanitizeGeneratedCode r)`, i.e. the repaired text is
returned without re-running the detector on it, even if still broken. -/
theorem generate_repair_single_call :
    (∀ (k : Option String) (system : String) (body : ReqBody)
       (store : Store) (gen : Nat → GenOutcome),
       ((generatePOST k system body store gen).2).length ≤ 2) ∧
    (∀ (k : Option String) (system : String) (body : ReqBody)
       (store : Store) (gen : Nat → GenOutcome)
       (t : Option String) (st r rst : String),
       k.getD "" ≠ "" →
       gen 0 = GenOutcome.resp t st →
       isLikelyBroken (sanitizeGeneratedCode (t.getD st)) = true →
       gen 1 = GenOutcome.resp (some r) rst →
       r ≠ "" →
       (generatePOST k system body store gen).2 =
         [call1For system store body,
          repairCallFor body (sanitizeGeneratedCode (t.getD st))] ∧
       (generatePOST k system body store gen).1 =
         { status := 200, body := sanitizeGeneratedCode r }) := by
  constructor
  · intro k system body store gen
    unfold generatePOST
    split
    · simp
    · cases hg0 : gen 0 with
      | throws e => simp
      | resp t st =>
        by_cases hb : isLikelyBroken (sanitizeGeneratedCode (t.getD st)) = true
        · cases hg1 : gen 1 with
          | throws e => simp [hb]
          | resp rt rst =>
            cases rt with
            | none => simp [hb]
            | some r =>
              by_cases hr : r = ""
              · simp [hb, hr]
              · simp [hb, hr]
        · simp [hb]
  · intro k system body store gen t st r rst hk h0 hb h1 hr
    simp [generatePOST, hk, h0, hb, h1, hr]

/-- C4, witness: with an oracle always answering `"{"` (which stays broken
after sanitizing, also as repair result), the handler issues exactly the
two calls and returns the re-sanitized repair text. -/
theorem generate_repair_single_call_witness :
    isLikelyBroken (sanitizeGeneratedCode "\x7b") = true ∧
    (generatePOST (some "key") "sys" demoBody [] demoGenBroken).2 =
      [call1For "sys" [] demoBody,
       repairCallFor demoBody (sanitizeGeneratedCode "\x7b")] ∧
    (generatePOST (some "key") "sys" demoBody [] demoGenBroken).1 =
      { status := 200, body := sanitizeGeneratedCode "\x7b" } := by
  have h := generate_repair_single_call.2 (some "key") "sys" demoBody []
    demoGenBroken (some "\x7b") "" "\x7b" "" (by decide) rfl (by decide) rfl
    (by decide)
  exact ⟨by decide, h.1, h.2⟩

/-- C5: when the detector flags the sanitized text, a repair call that
rejects, or that yields no text, or that yields the empty string, leaves
the response at the original pre-repair sanitized text with a normal 200
response (no exception reaches the caller); a usable repair text is passed
through the sanitizer again before being returned. -/
theorem generate_repair_fallback (k : Option String) (system : String)
    (body : ReqBody) (store : Store) (gen : Nat → GenOutcome)
    (t : Option String) (st : String)
    (hk : k.getD "" ≠ "")
    (h0 : gen 0 = GenOutcome.resp t st)
    (hb : isLikelyBroken (sanitizeGeneratedCode (t.getD st)) = true) :
    (∀ e, gen 1 = GenOutcome.throws e →
       (generatePOST k system body store gen).1 =
         { status := 200, body := sanitizeGeneratedCode (t.getD st) }) ∧
    (∀ rst, gen 1 = GenOutcome.resp none rst →
       (generatePOST k system body store gen).1 =
         { status := 200, body := sanitizeGeneratedCode (t.getD st) }) ∧
    (∀ rst, gen 1 = GenOutcome.resp (some "") rst →
       (generatePOST k system body store gen).1 =
         { status := 200, body := sanitizeGeneratedCode (t.getD st) }) ∧
    (∀ r rst, gen 1 = GenOutcome.resp (some r) rst → r ≠ "" →
       (generatePOST k system body store gen).1 =
         { status := 200, body := sanitizeGeneratedCode r }) := by
  refine ⟨fun e h1 => ?_, fun rst h1 => ?_, fun rst h1 => ?_,
    fun r rst h1 hr => ?_⟩
  · simp [generatePOST, hk, h0, hb, h1]
  · simp [generatePOST, hk, h0, hb, h1]
  · simp [generatePOST, hk, h0, hb, h1]
  · simp [generatePOST, hk, h0, hb, h1, hr]

/-- C5, witness: the repair call rejects and the handler still returns the
pre-repair sanitized text with status 200. -/
theorem generate_repair_fallback_witness :
    (generatePOST (some "key") "sys" demoBody [] demoGenRepairThrows).1 =
      { status := 200, body := sanitizeGeneratedCode "\x7b" } :=
  (generate_repair_fallback (some "key") "sys" demoBody []
    demoGenRepairThrows (some "\x7b") "" (by decide) rfl (by decide)).1
    "network error" rfl

/-- C6: any text with three opening and two closing curly braces is
flagged broken, whatever its quote or backtick content: the brace-count
disjunct of `isLikelyBroken` is true, and every earlier check that could
fire first also returns true. -/
theorem brace_imbalance_detected (s : String)
    (h3 : s.data.count '\x7b' = 3) (h2 : s.data.count '\x7d' = 2) :
    isLikelyBroken s = true := by
  simp [isLikelyBroken, isLikelyBrokenList, h3, h2]

/-- C6, witness at the five-character input with three `{` and two `}`. -/
theorem brace_imbalance_detected_witness :
    ("\x7b\x7b\x7b\x7d\x7d" : String).data.count '\x7b' = 3 ∧
    ("\x7b\x7b\x7b\x7d\x7d" : String).data.count '\x7d' = 2 ∧
    isLikelyBroken "\x7b\x7b\x7b\x7d\x7d" = true :=
  ⟨by decide, by decide,
   brace_imbalance_detected "\x7b\x7b\x7b\x7d\x7d" (by decide) (by decide)⟩

/-- C7: any text whose count of unescaped backticks is odd is flagged
broken (the first check of `isLikelyBroken`). -/
theorem odd_backticks_detected (s : String)
    (h : countUnescaped '\x60' s.data % 2 = 1) :
    isLikelyBroken s = true := by
  simp [isLikelyBroken, isLikelyBrokenList, h]

/-- C7, witness at the spec's example `const s = \x60hello` (one
unterminated backtick). -/
theorem odd_backticks_detected_witness :
    countUnescaped '\x60' ("const s = \x60hello" : String).data % 2 = 1 ∧
    isLikelyBroken "const s = \x60hello" = true :=
  ⟨by decide, odd_backticks_detected "const s = \x60hello" (by decide)⟩

/-- C8: after inserting a record under an identifier, retrieval by that
identifier returns exactly the stored record; retrieval of any identifier
never inserted returns `none` (JavaScript `undefined`), the total
function's not-found result — no exception. -/
theorem store_set_get (m : Store) (k : String) (v : ImageRecord)
    (kMiss : String) :
    storeGet (storeSet m k v) k = some v ∧
    (kMiss ≠ k → (∀ p ∈ m, p.1 ≠ kMiss) →
      storeGet (storeSet m k v) kMiss = none) := by
  refine ⟨storeGet_storeSet_self m k v, fun hne habs => ?_⟩
  apply storeGet_eq_none
  intro p hp
  rcases mem_storeSet hp with h | h
  · rw [h]; exact fun he => hne he.symm
  · exact habs p h

/-- C8, witness: insert into the empty store and look up the inserted and
a missing identifier. -/
theorem store_set_get_witness :
    storeGet (storeSet [] "img-1" demoRecord) "img-1" = some demoRecord ∧
    storeGet (storeSet [] "img-1" demoRecord) "missing" = none :=
  ⟨(store_set_get [] "img-1" demoRecord "missing").1,
   (store_set_get [] "img-1" demoRecord "missing").2 (by decide)
     (by intro p hp; cases hp)⟩

/-- C9: with the `GEMINI_API_KEY` configuration absent (or empty — the
source reads `process.env.GEMINI_API_KEY || ''`), the handler returns the
explicit 500 response and its model-call log is empty: no model call is
attempted. -/
theorem missing_key_fails_fast (k : Option String) (system : String)
    (body : ReqBody) (store : Store) (gen : Nat → GenOutcome)
    (hk : k = none ∨ k = some "") :
    generatePOST k system body store gen =
      ({ status := 500, body := "GEMINI_API_KEY not set" }, []) := by
  rcases hk with h | h <;> subst h <;> rfl

/-- C9, witness with the key absent. -/
theorem missing_key_fails_fast_witness :
    generatePOST none "sys" demoBody [] demoGenBroken =
      ({ status := 500, body := "GEMINI_API_KEY not set" }, []) :=
  missing_key_fails_fast none "sys" demoBody [] demoGenBroken (Or.inl rfl)

/-- C10: when the request's `imageId` resolves to a stored record whose
description is a non-empty string `d`, the description used for the prompt
is `d`, and the whole handler run — responses and issued model calls,
hence the prompts sent to the model — is unchanged under any change of the
client-supplied `imageDescription`; and the client-supplied description is
used only when no stored description exists (second conjunct). -/
theorem stored_description_preferred :
    (∀ (store : Store) (iid : String) (rec : ImageRecord) (d : String)
       (mo iu c c2 : Option String) (sh : Bool),
       storeGet store iid = some rec →
       rec.description = some d →
       d ≠ "" →
       iid ≠ "" →
       descriptionToUse store ⟨mo, iu, some iid, c, sh⟩ = some d ∧
       (∀ (k : Option String) (system : String) (gen : Nat → GenOutcome),
          generatePOST k system ⟨mo, iu, some iid, c, sh⟩ store gen =
          generatePOST k system ⟨mo, iu, some iid, c2, sh⟩ store gen)) ∧
    (∀ (store : Store) (body : ReqBody),
       (storedFor store body).bind ImageRecord.description = none →
       descriptionToUse store body = body.imageDescription) := by
  constructor
  · intro store iid rec d mo iu c c2 sh hget hdesc hd hiid
    have hsd : ∀ cl : Option String,
        (storedFor store ⟨mo, iu, some iid, cl, sh⟩).bind
          ImageRecord.description = some d := by
      intro cl
      simp [storedFor, hiid, hget, hdesc]
    constructor
    · simp [descriptionToUse, hsd c]
    · intro k system gen
      have hc : call1For system store ⟨mo, iu, some iid, c, sh⟩ =
          call1For system store ⟨mo, iu, some iid, c2, sh⟩ := by
        simp [call1For, userPromptTextFor, userPromptFor, imageDescriptor,
          descriptionToUse, modelNameFor, hsd c, hsd c2]
      have hrc : repairCallFor ⟨mo, iu, some iid, c, sh⟩ =
          repairCallFor ⟨mo, iu, some iid, c2, sh⟩ := rfl
      unfold generatePOST
      rw [hc, hrc]
  · intro store body h
    simp [descriptionToUse, h]

/-- C10, witness: with a stored non-empty description, the prompt
description is the stored one and the run is unchanged when the
client-supplied description is dropped. -/
theorem stored_description_preferred_witness :
    descriptionToUse demoStore
        ⟨none, none, some "img-1", some "client text", false⟩ =
      some "a red submit button on a white card" ∧
    generatePOST (some "key") "sys"
        ⟨none, none, some "img-1", some "client text", false⟩ demoStore
        demoGenBroken =
      generatePOST (some "key") "sys"
        ⟨none, none, some "img-1", none, false⟩ demoStore demoGenBroken := by
  have h := stored_description_preferred.1 demoStore "img-1" demoRecord
    "a red submit button on a white card" none none (some "client text")
    none false (by decide) rfl (by decide) (by decide)
  exact ⟨h.1, h.2 (some "key") "sys" demoGenBroken⟩

end Pixareact
